import Mathlib

/-!
Verification of the orchestration layer in `trainer/trainutils.py`
(SimpleConvTrainer): the argument schema (`get_argv`), the architecture
selector (`build_architecture`), the dataset loader wrapper
(`load_images_and_labels`) and the report writer (`write_training_report`).

The Python source is shallowly embedded: Python `int` becomes `Int`,
`float` becomes `ℚ` (every value this layer manipulates is exactly
representable), strings become `String`, and functions that can raise
become `Except`/`Option`. Components that live outside the repository
(the `visutils` model factories and dataset loader, `argparse`'s
process-exit behavior, `datetime.now()`, the optimizer's `get_config()`
and the model's `summary()`) are modelled from the spec and passed in as
explicit inputs; each such definition carries a doc comment saying so.
-/

/-- Numeric value of a list of decimal digit characters. -/
def digitsToNat (ds : List Char) : Nat :=
  ds.foldl (fun acc c => acc * 10 + (c.toNat - 48)) 0

/-- Python `bool(...)` applied to a command-line token (the schema declares
`type = bool` for `--normalize` and `--grayscale`): the empty string is
falsy, every other string — including the literal text "false" — is truthy. -/
def pyBool (s : String) : Bool :=
  if s = "" then false else true

/-- Python `int(...)` applied to a command-line token, as `argparse` uses it
for `type = int` options: an optional sign followed by decimal digits;
anything else raises, which the parser turns into a usage error. -/
def pyInt (s : String) : Option Int :=
  match s.data with
  | '-' :: ds =>
      if ds ≠ [] ∧ ds.all Char.isDigit then some (-(digitsToNat ds : Int)) else none
  | '+' :: ds =>
      if ds ≠ [] ∧ ds.all Char.isDigit then some (digitsToNat ds : Int) else none
  | ds =>
      if ds ≠ [] ∧ ds.all Char.isDigit then some (digitsToNat ds : Int) else none

/-- Split a character list at every occurrence of the separator `c`. -/
def splitChar (c : Char) : List Char → List (List Char)
  | [] => [[]]
  | x :: xs =>
    let r := splitChar c xs
    if x = c then [] :: r
    else
      match r with
      | [] => [[x]]
      | y :: ys => (x :: y) :: ys

/-- Python `float(...)` applied to a command-line token (`type = float` for
`--etha`), restricted to plain decimal literals with an optional sign and an
optional fractional part; the exact rational value is kept. -/
def pyFloat (s : String) : Option ℚ :=
  let signed : Bool × List Char :=
    match s.data with
    | '-' :: ds => (true, ds)
    | '+' :: ds => (false, ds)
    | ds => (false, ds)
  match splitChar '.' signed.2 with
  | [i] =>
      if i ≠ [] ∧ i.all Char.isDigit then
        some (if signed.1 then -(digitsToNat i : ℚ) else (digitsToNat i : ℚ))
      else none
  | [i, f] =>
      if (i ≠ [] ∨ f ≠ []) ∧ i.all Char.isDigit ∧ f.all Char.isDigit then
        let v : ℚ := (digitsToNat i : ℚ) + (digitsToNat f : ℚ) / (10 ^ f.length : ℚ)
        some (if signed.1 then -v else v)
      else none
  | _ => none

/-- Modelled from the spec: the shape-relevant metadata of a model object
constructed by the external `visutils.neuralnets.conv` factories (the
factories themselves are not part of this repository). Per spec §4.2 a model
is characterized here by its declared input geometry and output class count. -/
structure KerasModel where
  width : Nat
  height : Nat
  depth : Nat
  classes : Nat
  deriving DecidableEq, Repr

/-- Modelled from the spec: `visutils.neuralnets.conv.LeNet.build`, external
to this repository; per spec §8 it returns a model whose declared input shape
matches the requested (width, height, depth) and class count. -/
def LeNet.build (width height depth classes : Nat) : KerasModel :=
  { width := width, height := height, depth := depth, classes := classes }

/-- Modelled from the spec: `visutils.neuralnets.conv.KarpathyNet.build`,
external to this repository; the selector calls it with `dropout = True`.
Dropout does not affect the declared geometry recorded here. -/
def KarpathyNet.build (width height depth classes : Nat) (dropout : Bool) : KerasModel :=
  { width := width, height := height, depth := depth, classes := classes }

/-- Modelled from the spec: `visutils.neuralnets.conv.MiniVGGNet.build`,
external to this repository; returns a model with the requested geometry. -/
def MiniVGGNet.build (width height depth classes : Nat) : KerasModel :=
  { width := width, height := height, depth := depth, classes := classes }

/-- Modelled from the spec: `visutils.neuralnets.conv.VGG16.build`, external
to this repository. Per spec §4.2 and the module docstring of
`trainutils.py` ("fixed size input {224, 224, 3} and 1000 classes"), it takes
no geometry arguments and always builds the fixed-shape VGG16. -/
def VGG16.build : KerasModel :=
  { width := 224, height := 224, depth := 3, classes := 1000 }

/-- The parsed program arguments (`argparse.Namespace` of `get_argv`), one
field per option of the schema, named after the Python attribute names. -/
structure Argv where
  architecture : String
  dataset : String
  normalize : Bool
  model_name : String
  grayscale : Bool
  image_size : Int
  optimizer : String
  etha : ℚ
  epochs : Int
  batch_size : Int
  deriving DecidableEq, Repr

/-- `build_architecture` from `trainutils.py`: dispatches on
`argv.architecture` by exact string comparison against the four literals
`"lenet"`, `"karpathynet"`, `"minivgg"`, `"vgg16"`. The Python function has
no else-branch: when no comparison matches, the local `model` is never
assigned and `return model` raises `UnboundLocalError`; that fall-through
(no model is constructed) is `none` in this embedding. -/
def build_architecture (argv : Argv) (width height depth classes : Nat) : Option KerasModel :=
  if argv.architecture = "lenet" then
    some (LeNet.build width height depth classes)
  else if argv.architecture = "karpathynet" then
    some (KarpathyNet.build width height depth classes true)
  else if argv.architecture = "minivgg" then
    some (MiniVGGNet.build width height depth classes)
  else if argv.architecture = "vgg16" then
    some VGG16.build
  else
    none

/-- An argument record with the given architecture name and the schema's
default values in every optional field, used for concrete evaluations. -/
def mkArgv (arch : String) : Argv :=
  { architecture := arch, dataset := "datasets/animals", normalize := true,
    model_name := "model1", grayscale := false, image_size := 64,
    optimizer := "SGD", etha := 1/1000, epochs := 30, batch_size := 32 }

/-- The usage line `argparse` prints for the program name declared in
`get_argv` (`prog = 'python(3.6) trainer/main.py'`). -/
def usageLine : String := "usage: python(3.6) trainer/main.py"

/-- Modelled from the spec: on any argument error, `argparse` prints the
usage text followed by an error line and exits the process with a non-zero
status; the message an errored parse carries always starts with the usage
line. -/
def usageError (msg : String) : String :=
  usageLine ++ "\n" ++ "error: " ++ msg

/-- The intermediate state of a command-line parse: one optional slot per
option of the schema declared in `get_argv`; a slot is `none` until its flag
is seen. -/
structure ParseState where
  architecture : Option String := none
  dataset : Option String := none
  normalize : Option Bool := none
  model_name : Option String := none
  grayscale : Option Bool := none
  image_size : Option Int := none
  optimizer : Option String := none
  etha : Option ℚ := none
  epochs : Option Int := none
  batch_size : Option Int := none
  deriving DecidableEq, Repr

/-- The ten options of the schema declared in `get_argv`. -/
inductive OptId
  | arch | dataset | normalize | modelName | grayscale
  | imageSize | optimizer | etha | epochs | batchSize
  deriving DecidableEq, Repr

/-- Which option of the schema a flag token names: each option is recognized
under its short and its long name, in the order the schema declares them;
any other token is not a flag of the schema. -/
def flagId (flag : String) : Option OptId :=
  if flag = "-a" ∨ flag = "--architecture" then some OptId.arch
  else if flag = "-d" ∨ flag = "--dataset" then some OptId.dataset
  else if flag = "-n" ∨ flag = "--normalize" then some OptId.normalize
  else if flag = "-mn" ∨ flag = "--model-name" then some OptId.modelName
  else if flag = "-g" ∨ flag = "--grayscale" then some OptId.grayscale
  else if flag = "-i" ∨ flag = "--image-size" then some OptId.imageSize
  else if flag = "-o" ∨ flag = "--optimizer" then some OptId.optimizer
  else if flag = "-etha" ∨ flag = "--etha" then some OptId.etha
  else if flag = "-e" ∨ flag = "--epochs" then some OptId.epochs
  else if flag = "-b" ∨ flag = "--batch-size" then some OptId.batchSize
  else none

/-- Consume one flag token and its value token, per the option schema of
`get_argv`: the value is converted with the option's declared type (`str`,
`bool`, `int`, `float`); a failed conversion or an unknown flag is a usage
error. -/
def applyOpt (st : ParseState) (flag v : String) : Except String ParseState :=
  match flagId flag with
  | some OptId.arch => Except.ok { st with architecture := some v }
  | some OptId.dataset => Except.ok { st with dataset := some v }
  | some OptId.normalize => Except.ok { st with normalize := some (pyBool v) }
  | some OptId.modelName => Except.ok { st with model_name := some v }
  | some OptId.grayscale => Except.ok { st with grayscale := some (pyBool v) }
  | some OptId.imageSize =>
    match pyInt v with
    | some n => Except.ok { st with image_size := some n }
    | none => Except.error (usageError ("argument -i/--image-size: invalid int value: " ++ v))
  | some OptId.optimizer => Except.ok { st with optimizer := some v }
  | some OptId.etha =>
    match pyFloat v with
    | some q => Except.ok { st with etha := some q }
    | none => Except.error (usageError ("argument -etha/--etha: invalid float value: " ++ v))
  | some OptId.epochs =>
    match pyInt v with
    | some n => Except.ok { st with epochs := some n }
    | none => Except.error (usageError ("argument -e/--epochs: invalid int value: " ++ v))
  | some OptId.batchSize =>
    match pyInt v with
    | some n => Except.ok { st with batch_size := some n }
    | none => Except.error (usageError ("argument -b/--batch-size: invalid int value: " ++ v))
  | none => Except.error (usageError ("unrecognized arguments: " ++ flag))

/-- Modelled from the spec: `argparse`'s token walk over the command line for
a schema in which every option takes exactly one value token — flag/value
pairs are consumed left to right, a trailing flag with no value is a usage
error. -/
def parseTokens : List String → ParseState → Except String ParseState
  | [], st => Except.ok st
  | [flag], _ => Except.error (usageError ("argument " ++ flag ++ ": expected one argument"))
  | flag :: v :: rest, st =>
    match applyOpt st flag v with
    | Except.error e => Except.error e
    | Except.ok st' => parseTokens rest st'

/-- The flags of the required options (`-a` or `--architecture`, `-d` or
`--dataset`, `-mn` or `--model-name`) whose slot is still empty after the
token walk, in the order `argparse` reports them. -/
def requiredMissing (st : ParseState) : List String :=
  (if st.architecture.isNone then ["-a/--architecture"] else []) ++
  (if st.dataset.isNone then ["-d/--dataset"] else []) ++
  (if st.model_name.isNone then ["-mn/--model-name"] else [])

/-- `get_argv` from `trainutils.py`, applied to the command-line tokens: the
declared option schema is walked over the tokens; if all three required
options were supplied the parsed `Argv` is returned, every optional field
defaulted (normalize=True, grayscale=False, image_size=64, optimizer="SGD",
etha=0.001, epochs=30, batch_size=32); otherwise the parse is a usage error
naming the missing required flags. Process exit on error is modelled by the
`Except.error` branch. -/
def get_argv (tokens : List String) : Except String Argv :=
  match parseTokens tokens {} with
  | Except.error e => Except.error e
  | Except.ok st =>
    match st.architecture, st.dataset, st.model_name with
    | some a, some d, some m =>
      Except.ok { architecture := a, dataset := d, normalize := st.normalize.getD true,
                  model_name := m, grayscale := st.grayscale.getD false,
                  image_size := st.image_size.getD 64, optimizer := st.optimizer.getD "SGD",
                  etha := st.etha.getD (1/1000), epochs := st.epochs.getD 30,
                  batch_size := st.batch_size.getD 32 }
    | _, _, _ =>
      Except.error (usageError ("the following arguments are required: "
        ++ String.intercalate ", " (requiredMissing st)))

/-- Modelled from the spec: label inference of the external
`SimpleDatasetLoader` — the label of an image is its path's parent directory
name (the second-to-last component of the slash-separated path). -/
def parentLabel (path : String) : String :=
  match (splitChar '/' path.data).reverse with
  | _ :: dir :: _ => String.mk dir
  | _ => ""

/-- `load_images_and_labels` from `trainutils.py`. The preprocessors
(`AspectAwarePreprocessor`, `ImageToArrayPreprocessor`) and the
`SimpleDatasetLoader` are external to this repository; decoding a path into a
preprocessed numeric image is abstracted as `disk`, a function of the image
size and grayscale flag the loader is configured with (`argv.image_size`,
`argv.grayscale`) and of the path. Labels come from each path's parent
directory. If `normalize` — the function's own parameter, defaulting to
`true` — is set, `data.astype(float) / 255.0` divides every pixel intensity
by 255; the progress printing of the loader has no bearing on the result and
is not modelled. -/
def load_images_and_labels (argv : Argv) (disk : Int → Bool → String → List ℚ)
    (imagepaths : List String) (normalize : Bool := true) :
    List (List ℚ) × List String :=
  let data := imagepaths.map (fun p => disk argv.image_size argv.grayscale p)
  let labels := imagepaths.map parentLabel
  if normalize then
    (data.map (fun img => img.map (fun x => x / 255)), labels)
  else
    (data, labels)

/-- Python `str.ljust`: pad on the right with spaces to the given width, as
the format specs `{x:12}` and `{x:10}` do for strings. -/
def pyLJust (s : String) (w : Nat) : String :=
  s ++ String.mk (List.replicate (w - s.data.length) ' ')

/-- Python `str.rjust`: pad on the left with spaces to the given width, as
the format specs `{x:10}` and `{x:10.3f}` do for numbers. -/
def pyRJust (s : String) (w : Nat) : String :=
  String.mk (List.replicate (w - s.data.length) ' ') ++ s

/-- Python `str(...)` of a boolean. -/
def pyStrBool : Bool → String
  | true => "True"
  | false => "False"

/-- Modelled from the spec: Python `str(...)` of a float command-line value;
exact for decimally-terminating rationals, which covers every float this
layer constructs (a non-terminating value falls back to a fraction
rendering). -/
def pyStrRat (q : ℚ) : String :=
  match (List.range 20).find? (fun k => (10 ^ k : Nat) % q.den = 0) with
  | some k =>
    let m : Nat := q.num.natAbs * (10 ^ k / q.den)
    let sign : String := if q.num < 0 then "-" else ""
    if k = 0 then
      sign ++ toString m ++ ".0"
    else
      let fracs := toString (m % 10 ^ k)
      sign ++ toString (m / 10 ^ k) ++ "."
        ++ String.mk (List.replicate (k - fracs.data.length) '0') ++ fracs
  | none => toString q.num ++ "/" ++ toString q.den

/-- A single-quote character, used by Python `str(...)` of a list of
strings. -/
def pyQuote : String := String.mk [Char.ofNat 39]

/-- Python `str(...)` of a list of strings: comma-separated single-quoted
elements in square brackets. -/
def pyStrStrList (l : List String) : String :=
  "[" ++ String.intercalate ", " (l.map (fun s => pyQuote ++ s ++ pyQuote)) ++ "]"

/-- Left-pad a digit string with zeros to 3 characters. -/
def padZeros3 (s : String) : String :=
  String.mk (List.replicate (3 - s.data.length) '0') ++ s

/-- Python `format(x, "10.3f")`, the spec of the elapsed-time f-string in
`write_training_report`: the value rounded to 3 decimal places (ties to
even) and right-justified with spaces to width 10. Rounding acts on the
exact rational; CPython rounds the binary double, and the two agree on every
exactly-representable value such as whole minutes. -/
def pyFormatFloat103 (q : ℚ) : String :=
  let a : Int := q.num * 1000
  let b : Int := (q.den : Int)
  let fl : Int := Int.fdiv a b
  let r : Int := a - fl * b
  let n : Int := if 2 * r < b then fl else if b < 2 * r then fl + 1
                 else if fl % 2 = 0 then fl else fl + 1
  let sign : String := if n < 0 then "-" else ""
  let m : Nat := n.natAbs
  pyRJust (sign ++ toString (m / 1000) ++ "." ++ padZeros3 (toString (m % 1000))) 10

/-- `argv._get_kwargs()`: the parsed options as (attribute name, value)
pairs sorted by attribute name, each value rendered the way the report's
f-string `{val}` renders it (Python `str`). -/
def Argv.get_kwargs (a : Argv) : List (String × String) :=
  [("architecture", a.architecture),
   ("batch_size", toString a.batch_size),
   ("dataset", a.dataset),
   ("epochs", toString a.epochs),
   ("etha", pyStrRat a.etha),
   ("grayscale", pyStrBool a.grayscale),
   ("image_size", toString a.image_size),
   ("model_name", a.model_name),
   ("normalize", pyStrBool a.normalize),
   ("optimizer", a.optimizer)]

/-- Modelled from the spec: the `modelparams` mapping assembled by the main
script (not under `src/`) after training and consumed by the report writer —
the image size, the optimizer's `get_config()` dictionary (keys with their
rendered values, the rendering of the external config values being opaque to
this layer), the loss function name, the metrics list, the elapsed training
time in seconds, and the lines the model's `summary(print_fn=...)` callback
emits. -/
structure ModelParams where
  imagesize : Int
  optimizer_config : List (String × String)
  loss_function : String
  metrics : List String
  elapsed_time : ℚ
  model_summary_lines : List String

/-- The text `write_training_report` writes, one `++`-operand per `f.write`
argument of the source, in source order; the two loops (program arguments,
optimizer configuration) and the summary callback become `String.join`s. -/
def reportContent (a : Argv) (now : String) (mp : ModelParams) (report : String) : String :=
  "REPORT FOR MODEL: " ++ a.model_name ++ "\n\n" ++
  "DATETIME: " ++ now ++ "\n\n" ++
  "             ========   PROGRAM ARGUMENTS   ========\n\n" ++
  String.join ((Argv.get_kwargs a).map
    (fun kv => pyLJust (kv.1 ++ ":") 12 ++ "    " ++ kv.2 ++ "\n")) ++
  "\n\n" ++
  "             ======== MODEL HYPERPARAMETERS ========\n\n" ++
  "image size:\t" ++ toString mp.imagesize ++ " * " ++ toString mp.imagesize ++ "\n" ++
  "epochs:\t" ++ pyRJust (toString a.epochs) 10 ++ "\n" ++
  "optimizer:\t" ++ pyLJust a.optimizer 10 ++ "\n\n" ++
  String.join (mp.optimizer_config.map
    (fun kv => "\t\t\t* " ++ pyLJust kv.1 10 ++ ": \t" ++ kv.2 ++ "\n")) ++
  "\nloss function:\t" ++ pyLJust mp.loss_function 10 ++ "\n" ++
  "metrics:\t" ++ pyLJust (pyStrStrList mp.metrics) 10 ++ "\n\n\n" ++
  "             ========    ELAPSED TRAINING TIME ========\n\n" ++
  "elapsed training time:\t" ++ pyFormatFloat103 (mp.elapsed_time / 60) ++ " minutes\n\n\n" ++
  "             ========     MODEL SUMMARY  ========\n\n" ++
  String.join (mp.model_summary_lines.map (fun line => line ++ "\n")) ++
  "\n\n" ++
  "             ======== CLASSIFICATION REPORT ========\n\n" ++
  report ++
  "\n\n"

/-- `write_training_report` from `trainutils.py`: the path the report is
opened at (mode "w", so an existing file is truncated and overwritten) and
the text written to it. `datetime.datetime.now()` is external and passed in
as `now`. -/
def write_training_report (a : Argv) (now : String) (mp : ModelParams) (report : String) :
    String × String :=
  ("output/reports/" ++ a.model_name ++ "_report.txt", reportContent a now mp report)

/-- Writing a file over a file system (paths to contents): the target path
maps to the new content — replacing any previous content, as mode "w" does —
and every other path is untouched. -/
def fsWrite (fs : String → Option String) (path content : String) : String → Option String :=
  fun q => if q = path then some content else fs q

/-- Modelled from the spec: the control flow of the main script, which is
not under `src/` — per spec §2 and §4.1, `argparse` terminates the process
with usage text and a non-zero exit status (2) before anything is written
when the arguments are invalid; otherwise the run proceeds and ends by
writing the training report. The training step itself is external; its
outputs are the `mp` and `report` inputs. Result: the exit status and the
(path, content) pairs written. -/
def runProgram (tokens : List String) (now : String) (mp : ModelParams) (report : String) :
    Int × List (String × String) :=
  match get_argv tokens with
  | Except.error _ => (2, [])
  | Except.ok a => (0, [write_training_report a now mp report])

/-- A concrete `ModelParams` value for concrete evaluations: 120 seconds of
elapsed training time. -/
def mpSample : ModelParams :=
  { imagesize := 64, optimizer_config := [("learning_rate", "0.001")],
    loss_function := "categorical_crossentropy", metrics := ["accuracy"],
    elapsed_time := 120, model_summary_lines := ["Layer (type)", "dense (Dense)"] }

/-- C3: both boolean-typed options parse their value with Python `bool`, so
any non-empty value token is parsed as true — including the literal text
"false": a command line carrying `--normalize s` and `--grayscale s` for any
non-empty `s` yields normalize = true and grayscale = true. -/
theorem C3_nonempty_string_is_true :
    ∀ s : String, s ≠ "" →
      pyBool s = true ∧
      ∃ a : Argv,
        get_argv ["-a", "lenet", "-d", "datasets/animals", "-mn", "m1",
                  "--normalize", s, "--grayscale", s] = Except.ok a ∧
        a.normalize = true ∧ a.grayscale = true := by
  intro s hs
  have hb : pyBool s = true := by simp [pyBool, hs]
  exact ⟨hb,
    { architecture := "lenet", dataset := "datasets/animals", normalize := pyBool s,
      model_name := "m1", grayscale := pyBool s, image_size := 64, optimizer := "SGD",
      etha := 1/1000, epochs := 30, batch_size := 32 },
    rfl, hb, hb⟩

/-- C3 witness: invoking the program with `--normalize false` (and
`--grayscale false`) leaves both flags equal to true. -/
theorem C3_witness :
    pyBool "false" = true ∧
    ∃ a : Argv,
      get_argv ["-a", "lenet", "-d", "datasets/animals", "-mn", "m1",
                "--normalize", "false", "--grayscale", "false"] = Except.ok a ∧
      a.normalize = true ∧ a.grayscale = true :=
  C3_nonempty_string_is_true "false" (by decide)

/-- C8: a command line supplying only the three required options yields the
schema's defaults in every optional field: normalize=true, grayscale=false,
image_size=64, optimizer="SGD", etha=0.001, epochs=30, batch_size=32. -/
theorem C8_defaults :
    ∀ a d m : String,
      get_argv ["-a", a, "-d", d, "-mn", m]
        = Except.ok { architecture := a, dataset := d, normalize := true, model_name := m,
                      grayscale := false, image_size := 64, optimizer := "SGD",
                      etha := 1/1000, epochs := 30, batch_size := 32 } := by
  intro a d m
  rfl

/-- C1: the claim says that for an architecture name outside the enumeration,
`build_architecture` fails with an InvalidArchitecture error. The code has no
such error: at the failing input "alexnet" (a name the module docstring
advertises as supported) none of the four branches assigns `model`, the
function falls through, and no model is built — at runtime Python raises
`UnboundLocalError` at `return model`, not an InvalidArchitecture error. -/
theorem C1_unknown_arch_builds_nothing :
    build_architecture (mkArgv "alexnet") 32 32 3 5 = none := rfl

/-- C2: the claim says exactly five distinct architecture-name strings
construct a model. Only four do: "alexnet", the fifth architecture listed as
supported by the module docstring, has no branch in `build_architecture` and
builds nothing, while the four names "lenet", "karpathynet", "minivgg",
"vgg16" each construct a model. -/
theorem C2_four_not_five_architectures :
    build_architecture (mkArgv "alexnet") 64 64 3 10 = none ∧
    build_architecture (mkArgv "lenet") 64 64 3 10 = some (LeNet.build 64 64 3 10) ∧
    build_architecture (mkArgv "karpathynet") 64 64 3 10
      = some (KarpathyNet.build 64 64 3 10 true) ∧
    build_architecture (mkArgv "minivgg") 64 64 3 10 = some (MiniVGGNet.build 64 64 3 10) ∧
    build_architecture (mkArgv "vgg16") 64 64 3 10 = some VGG16.build :=
  ⟨rfl, rfl, rfl, rfl, rfl⟩

/-- C4: selecting architecture "vgg16" ignores the supplied width, height,
depth and class count: for every requested geometry the constructed model is
the fixed 224×224×3-input, 1000-class VGG16. -/
theorem C4_vgg16_ignores_geometry :
    ∀ (a : Argv) (width height depth classes : Nat), a.architecture = "vgg16" →
      build_architecture a width height depth classes = some VGG16.build ∧
      VGG16.build = { width := 224, height := 224, depth := 3, classes := 1000 } := by
  intro a width height depth classes h
  refine ⟨?_, rfl⟩
  simp [build_architecture, h]

/-- C4 witness: a concrete non-default geometry request for "vgg16" still
yields the fixed 224×224×3 → 1000 model. -/
theorem C4_witness :
    build_architecture (mkArgv "vgg16") 97 13 7 42
      = some { width := 224, height := 224, depth := 3, classes := 1000 } := by
  have h := C4_vgg16_ignores_geometry (mkArgv "vgg16") 97 13 7 42 rfl
  rw [h.1, h.2]

/-- C10: `build_architecture` matches the architecture name by exact,
case-sensitive string equality: every name outside the four lowercase
literals takes no construction branch and builds no model — in particular the
case variants "LeNet" and "VGG16" — while the exact lowercase "lenet" does
build one. -/
theorem C10_case_sensitive_dispatch :
    (∀ (a : Argv) (width height depth classes : Nat),
        a.architecture ∉ (["lenet", "karpathynet", "minivgg", "vgg16"] : List String) →
        build_architecture a width height depth classes = none) ∧
    build_architecture (mkArgv "LeNet") 64 64 3 10 = none ∧
    build_architecture (mkArgv "VGG16") 64 64 3 10 = none ∧
    (build_architecture (mkArgv "lenet") 64 64 3 10).isSome = true := by
  refine ⟨?_, rfl, rfl, rfl⟩
  intro a width height depth classes h
  simp only [List.mem_cons, List.not_mem_nil, or_false, not_or] at h
  simp [build_architecture, h.1, h.2.1, h.2.2.1, h.2.2.2]

/-- C10 witness: the case variant "KarpathyNet" of the supported
"karpathynet" builds no model. -/
theorem C10_witness :
    build_architecture (mkArgv "KarpathyNet") 8 8 1 2 = none :=
  C10_case_sensitive_dispatch.1 (mkArgv "KarpathyNet") 8 8 1 2 (by decide)

/-- C5: if `normalize` is true the loader divides every pixel intensity by
255, so an image whose pixels are all 255 yields sample values all equal to
1; with `normalize` false the pixel values are returned unchanged. -/
theorem C5_normalization :
    ∀ (a : Argv) (disk : Int → Bool → String → List ℚ) (paths : List String),
      (∀ p ∈ paths, ∀ x ∈ disk a.image_size a.grayscale p, x = 255) →
      (∀ img ∈ (load_images_and_labels a disk paths true).1, ∀ x ∈ img, x = 1) ∧
      (∀ img ∈ (load_images_and_labels a disk paths false).1, ∀ x ∈ img, x = 255) := by
  intro a disk paths h
  constructor
  · intro img himg x hx
    have himg' : img ∈ (paths.map (fun p => disk a.image_size a.grayscale p)).map
        (fun img => img.map (fun x => x / 255)) := himg
    rw [List.map_map, List.mem_map] at himg'
    obtain ⟨p, hp, himg⟩ := himg'
    subst himg
    simp only [Function.comp, List.mem_map] at hx
    obtain ⟨y, hy, rfl⟩ := hx
    rw [h p hp y hy]
    norm_num
  · intro img himg x hx
    have himg' : img ∈ paths.map (fun p => disk a.image_size a.grayscale p) := himg
    rw [List.mem_map] at himg'
    obtain ⟨p, hp, rfl⟩ := himg'
    exact h p hp x hx

/-- C5 witness: a synthetic all-255 three-pixel image loads as all-1 samples
under normalize=true and as unchanged 255s under normalize=false. -/
theorem C5_witness :
    (∀ img ∈ (load_images_and_labels (mkArgv "lenet") (fun _ _ _ => [255, 255, 255])
        ["datasets/animals/cats/cat0.png"] true).1, ∀ x ∈ img, x = 1) ∧
    (∀ img ∈ (load_images_and_labels (mkArgv "lenet") (fun _ _ _ => [255, 255, 255])
        ["datasets/animals/cats/cat0.png"] false).1, ∀ x ∈ img, x = 255) := by
  refine C5_normalization _ _ _ ?_
  intro p _ x hx
  simp only [List.mem_cons, List.not_mem_nil, or_false] at hx
  rcases hx with h | h | h <;> exact h

/-- C9: whether `load_images_and_labels` normalizes is governed solely by its
own `normalize` parameter: the configuration's normalize flag is never read
inside the function (changing `argv.normalize` changes nothing), and the
parameter defaults to `true`. -/
theorem C9_normalize_param_only :
    ∀ (a : Argv) (b : Bool) (disk : Int → Bool → String → List ℚ)
      (paths : List String) (n : Bool),
      load_images_and_labels { a with normalize := b } disk paths n
        = load_images_and_labels a disk paths n ∧
      load_images_and_labels a disk paths = load_images_and_labels a disk paths true :=
  fun _ _ _ _ _ => ⟨rfl, rfl⟩

/-- C6: the report writer writes to `output/reports/<model_name>_report.txt`,
overwriting any existing file; the content carries the sections in the fixed
source order (header with model name and timestamp, program-argument lines,
hyperparameter summary, optimizer configuration, loss function, metrics,
elapsed time, model summary, classification report verbatim); and the
elapsed time is rendered in minutes to 3 decimal places — 120 seconds render
as "     2.000" (the format spec pads to width 10). -/
theorem C6_report_writer :
    ∀ (a : Argv) (now : String) (mp : ModelParams) (report : String),
      (write_training_report a now mp report).1
        = "output/reports/" ++ a.model_name ++ "_report.txt" ∧
      (∃ g1 g2 g3 g4 g5 : String,
        (write_training_report a now mp report).2 =
          "REPORT FOR MODEL: " ++ a.model_name ++ "\n\n" ++
          "DATETIME: " ++ now ++ "\n\n" ++
          "             ========   PROGRAM ARGUMENTS   ========\n\n" ++ g1 ++
          "             ======== MODEL HYPERPARAMETERS ========\n\n" ++ g2 ++
          "\nloss function:\t" ++ g3 ++
          "metrics:\t" ++ g4 ++
          "             ========    ELAPSED TRAINING TIME ========\n\n" ++
          "elapsed training time:\t" ++ pyFormatFloat103 (mp.elapsed_time / 60)
            ++ " minutes\n\n\n" ++
          "             ========     MODEL SUMMARY  ========\n\n" ++ g5 ++
          "             ======== CLASSIFICATION REPORT ========\n\n" ++ report ++ "\n\n") ∧
      (mp.elapsed_time = 120 → pyFormatFloat103 (mp.elapsed_time / 60) = "     2.000") ∧
      (∀ (fs : String → Option String) (q : String),
        fsWrite fs (write_training_report a now mp report).1
            (write_training_report a now mp report).2 q
          = if q = "output/reports/" ++ a.model_name ++ "_report.txt"
            then some (write_training_report a now mp report).2 else fs q) := by
  intro a now mp report
  refine ⟨rfl, ?_, ?_, fun fs q => rfl⟩
  · refine ⟨String.join ((Argv.get_kwargs a).map
        (fun kv => pyLJust (kv.1 ++ ":") 12 ++ "    " ++ kv.2 ++ "\n")) ++ "\n\n",
      "image size:\t" ++ toString mp.imagesize ++ " * " ++ toString mp.imagesize ++ "\n" ++
        "epochs:\t" ++ pyRJust (toString a.epochs) 10 ++ "\n" ++
        "optimizer:\t" ++ pyLJust a.optimizer 10 ++ "\n\n" ++
        String.join (mp.optimizer_config.map
          (fun kv => "\t\t\t* " ++ pyLJust kv.1 10 ++ ": \t" ++ kv.2 ++ "\n")),
      pyLJust mp.loss_function 10 ++ "\n",
      pyLJust (pyStrStrList mp.metrics) 10 ++ "\n\n\n",
      String.join (mp.model_summary_lines.map (fun line => line ++ "\n")) ++ "\n\n", ?_⟩
    simp only [write_training_report, reportContent, String.append_assoc]
  · intro h
    rw [h, show (120 : ℚ) / 60 = 2 by norm_num]
    rfl

/-- C6 witness: with model name "model1" and 120 elapsed seconds the report
path is `output/reports/model1_report.txt` and the elapsed-time text is
"     2.000". -/
theorem C6_witness :
    (write_training_report (mkArgv "vgg16") "2026-10-12 10:00:00" mpSample "report").1
      = "output/reports/model1_report.txt" ∧
    pyFormatFloat103 (mpSample.elapsed_time / 60) = "     2.000" := by
  have h := C6_report_writer (mkArgv "vgg16") "2026-10-12 10:00:00" mpSample "report"
  exact ⟨by rw [h.1]; rfl, h.2.2.1 rfl⟩

/-- A flag token names the architecture option exactly when it is one of
that option's two names. -/
theorem flagId_arch (flag : String) :
    flagId flag = some OptId.arch ↔ (flag = "-a" ∨ flag = "--architecture") := by
  unfold flagId
  split_ifs <;> simp_all

/-- A flag token names the dataset option exactly when it is one of that
option's two names. -/
theorem flagId_dataset (flag : String) :
    flagId flag = some OptId.dataset ↔ (flag = "-d" ∨ flag = "--dataset") := by
  unfold flagId
  split_ifs <;> try simp_all
  all_goals rename_i hor
  all_goals rcases hor with rfl | rfl <;> exact ⟨by decide, by decide⟩

/-- A flag token names the model-name option exactly when it is one of that
option's two names. -/
theorem flagId_modelName (flag : String) :
    flagId flag = some OptId.modelName ↔ (flag = "-mn" ∨ flag = "--model-name") := by
  unfold flagId
  split_ifs <;> try simp_all
  all_goals rename_i hor
  all_goals rcases hor with rfl | rfl <;> exact ⟨by decide, by decide⟩

/-- Consuming one flag with `applyOpt` leaves the slot of a required option
unchanged unless the flag is one of that option's two names. -/
theorem applyOpt_ok_required (st : ParseState) (flag v : String) (st' : ParseState)
    (h : applyOpt st flag v = Except.ok st') :
    (flag ≠ "-a" → flag ≠ "--architecture" → st'.architecture = st.architecture) ∧
    (flag ≠ "-d" → flag ≠ "--dataset" → st'.dataset = st.dataset) ∧
    (flag ≠ "-mn" → flag ≠ "--model-name" → st'.model_name = st.model_name) := by
  unfold applyOpt at h
  cases hf : flagId flag with
  | none =>
    rw [hf] at h
    exact Except.noConfusion h
  | some id =>
    rw [hf] at h
    cases id
    case arch =>
      injection h with h
      subst h
      refine ⟨fun hn1 hn2 => ?_, fun _ _ => rfl, fun _ _ => rfl⟩
      rcases (flagId_arch flag).mp hf with e | e
      · exact absurd e hn1
      · exact absurd e hn2
    case dataset =>
      injection h with h
      subst h
      refine ⟨fun _ _ => rfl, fun hn1 hn2 => ?_, fun _ _ => rfl⟩
      rcases (flagId_dataset flag).mp hf with e | e
      · exact absurd e hn1
      · exact absurd e hn2
    case modelName =>
      injection h with h
      subst h
      refine ⟨fun _ _ => rfl, fun _ _ => rfl, fun hn1 hn2 => ?_⟩
      rcases (flagId_modelName flag).mp hf with e | e
      · exact absurd e hn1
      · exact absurd e hn2
    case normalize =>
      injection h with h
      subst h
      exact ⟨fun _ _ => rfl, fun _ _ => rfl, fun _ _ => rfl⟩
    case grayscale =>
      injection h with h
      subst h
      exact ⟨fun _ _ => rfl, fun _ _ => rfl, fun _ _ => rfl⟩
    case optimizer =>
      injection h with h
      subst h
      exact ⟨fun _ _ => rfl, fun _ _ => rfl, fun _ _ => rfl⟩
    case imageSize =>
      cases hp : pyInt v with
      | none =>
        rw [hp] at h
        exact Except.noConfusion h
      | some n =>
        rw [hp] at h
        injection h with h
        subst h
        exact ⟨fun _ _ => rfl, fun _ _ => rfl, fun _ _ => rfl⟩
    case etha =>
      cases hp : pyFloat v with
      | none =>
        rw [hp] at h
        exact Except.noConfusion h
      | some q =>
        rw [hp] at h
        injection h with h
        subst h
        exact ⟨fun _ _ => rfl, fun _ _ => rfl, fun _ _ => rfl⟩
    case epochs =>
      cases hp : pyInt v with
      | none =>
        rw [hp] at h
        exact Except.noConfusion h
      | some n =>
        rw [hp] at h
        injection h with h
        subst h
        exact ⟨fun _ _ => rfl, fun _ _ => rfl, fun _ _ => rfl⟩
    case batchSize =>
      cases hp : pyInt v with
      | none =>
        rw [hp] at h
        exact Except.noConfusion h
      | some n =>
        rw [hp] at h
        injection h with h
        subst h
        exact ⟨fun _ _ => rfl, fun _ _ => rfl, fun _ _ => rfl⟩

/-- An errored `applyOpt` always carries a usage-shaped message. -/
theorem applyOpt_error_usage (st : ParseState) (flag v : String) (e : String)
    (h : applyOpt st flag v = Except.error e) : ∃ m, e = usageError m := by
  unfold applyOpt at h
  cases hf : flagId flag with
  | none =>
    rw [hf] at h
    injection h with h
    exact ⟨_, h.symm⟩
  | some id =>
    rw [hf] at h
    cases id
    case arch => exact Except.noConfusion h
    case dataset => exact Except.noConfusion h
    case normalize => exact Except.noConfusion h
    case modelName => exact Except.noConfusion h
    case grayscale => exact Except.noConfusion h
    case optimizer => exact Except.noConfusion h
    case imageSize =>
      cases hp : pyInt v with
      | none =>
        rw [hp] at h
        injection h with h
        exact ⟨_, h.symm⟩
      | some n =>
        rw [hp] at h
        exact Except.noConfusion h
    case etha =>
      cases hp : pyFloat v with
      | none =>
        rw [hp] at h
        injection h with h
        exact ⟨_, h.symm⟩
      | some q =>
        rw [hp] at h
        exact Except.noConfusion h
    case epochs =>
      cases hp : pyInt v with
      | none =>
        rw [hp] at h
        injection h with h
        exact ⟨_, h.symm⟩
      | some n =>
        rw [hp] at h
        exact Except.noConfusion h
    case batchSize =>
      cases hp : pyInt v with
      | none =>
        rw [hp] at h
        injection h with h
        exact ⟨_, h.symm⟩
      | some n =>
        rw [hp] at h
        exact Except.noConfusion h

/-- The token walk leaves the slot of a required option untouched when
neither of that option's flags occurs among the tokens. -/
theorem parseTokens_ok_required :
    ∀ (ts : List String) (st st' : ParseState), parseTokens ts st = Except.ok st' →
      (("-a" ∉ ts ∧ "--architecture" ∉ ts) → st'.architecture = st.architecture) ∧
      (("-d" ∉ ts ∧ "--dataset" ∉ ts) → st'.dataset = st.dataset) ∧
      (("-mn" ∉ ts ∧ "--model-name" ∉ ts) → st'.model_name = st.model_name) := by
  intro ts st
  induction ts, st using parseTokens.induct with
  | case1 st =>
    intro st' h
    injection h with h
    subst h
    exact ⟨fun _ => rfl, fun _ => rfl, fun _ => rfl⟩
  | case2 flag st =>
    intro st' h
    exact Except.noConfusion h
  | case3 flag v rest st e heq =>
    intro st' h
    simp only [parseTokens, heq] at h
    exact Except.noConfusion h
  | case4 flag v rest st st2 heq ih =>
    intro st' h
    simp only [parseTokens, heq] at h
    have hap := applyOpt_ok_required st flag v st2 heq
    have hih := ih st' h
    refine ⟨fun hm => ?_, fun hm => ?_, fun hm => ?_⟩
    · obtain ⟨hm1, hm2⟩ := hm
      simp only [List.mem_cons, not_or] at hm1 hm2
      rw [hih.1 ⟨hm1.2.2, hm2.2.2⟩]
      exact hap.1 (fun e => hm1.1 e.symm) (fun e => hm2.1 e.symm)
    · obtain ⟨hm1, hm2⟩ := hm
      simp only [List.mem_cons, not_or] at hm1 hm2
      rw [hih.2.1 ⟨hm1.2.2, hm2.2.2⟩]
      exact hap.2.1 (fun e => hm1.1 e.symm) (fun e => hm2.1 e.symm)
    · obtain ⟨hm1, hm2⟩ := hm
      simp only [List.mem_cons, not_or] at hm1 hm2
      rw [hih.2.2 ⟨hm1.2.2, hm2.2.2⟩]
      exact hap.2.2 (fun e => hm1.1 e.symm) (fun e => hm2.1 e.symm)

/-- An errored token walk always carries a usage-shaped message. -/
theorem parseTokens_error_usage :
    ∀ (ts : List String) (st : ParseState) (e : String),
      parseTokens ts st = Except.error e → ∃ m, e = usageError m := by
  intro ts st
  induction ts, st using parseTokens.induct with
  | case1 st =>
    intro e h
    exact Except.noConfusion h
  | case2 flag st =>
    intro e h
    injection h with h
    exact ⟨_, h.symm⟩
  | case3 flag v rest st e0 heq =>
    intro e h
    simp only [parseTokens, heq, Except.error.injEq] at h
    subst h
    exact applyOpt_error_usage st flag v e0 heq
  | case4 flag v rest st st2 heq ih =>
    intro e h
    simp only [parseTokens, heq] at h
    exact ih e h

/-- C7: when a required flag (`-a` or `--architecture`, `-d` or `--dataset`,
`-mn` or `--model-name`) is absent from the command line, argument parsing
fails with a usage message, the program terminates with the non-zero exit
status 2, and no report file is written. -/
theorem C7_missing_required_flag :
    ∀ (ts : List String) (now : String) (mp : ModelParams) (report : String),
      (("-a" ∉ ts ∧ "--architecture" ∉ ts) ∨ ("-d" ∉ ts ∧ "--dataset" ∉ ts) ∨
       ("-mn" ∉ ts ∧ "--model-name" ∉ ts)) →
      (∃ msg, get_argv ts = Except.error (usageError msg)) ∧
      (runProgram ts now mp report).1 = 2 ∧ (runProgram ts now mp report).2 = [] := by
  intro ts now mp report hmiss
  have herr : ∃ msg, get_argv ts = Except.error (usageError msg) := by
    unfold get_argv
    cases hp : parseTokens ts {} with
    | error e =>
      obtain ⟨m, rfl⟩ := parseTokens_error_usage ts {} e hp
      exact ⟨m, rfl⟩
    | ok st =>
      have H := parseTokens_ok_required ts {} st hp
      have hnone : st.architecture = none ∨ st.dataset = none ∨ st.model_name = none := by
        rcases hmiss with hA | hD | hM
        · exact Or.inl (H.1 hA)
        · exact Or.inr (Or.inl (H.2.1 hD))
        · exact Or.inr (Or.inr (H.2.2 hM))
      rcases o1 : st.architecture with _ | a <;>
        rcases o2 : st.dataset with _ | d <;>
        rcases o3 : st.model_name with _ | m <;>
        simp only [o1, o2, o3] at hnone ⊢ <;>
        first
          | exact ⟨_, rfl⟩
          | simp at hnone
  obtain ⟨msg, hmsg⟩ := herr
  refine ⟨⟨msg, hmsg⟩, ?_, ?_⟩ <;> simp [runProgram, hmsg]

/-- C7 witness: a command line whose dataset flag is missing parses to a
usage error, exits with status 2, and writes no file. -/
theorem C7_witness :
    (∃ msg, get_argv ["-a", "lenet", "-mn", "model1"] = Except.error (usageError msg)) ∧
    (runProgram ["-a", "lenet", "-mn", "model1"] "2026-10-12" mpSample "rep").1 = 2 ∧
    (runProgram ["-a", "lenet", "-mn", "model1"] "2026-10-12" mpSample "rep").2 = [] :=
  C7_missing_required_flag ["-a", "lenet", "-mn", "model1"] "2026-10-12" mpSample "rep"
    (Or.inr (Or.inl ⟨by decide, by decide⟩))
